import Mathlib

/-!
# Verification of nerdctl's image-squash core (`pkg/cmd/image/squash.go`)

Shallow embedding of the squash pipeline: layer selection
(`generateSquashLayer`), base/commit config derivation
(`generateBaseImageConfig`, `generateCommitImageConfig`), manifest/label
construction (`writeContentsForImage`), the image-record upsert
(`createSquashImage`), and the snapshot-diff stage (`applyDiffLayer`),
together with the orchestrating `Squash` pipeline.

External collaborators (content store, snapshotter, diff service, image
store, lease manager, JSON marshalling, digest hashing) are modelled as
fields of an environment record: each call site receives the result the
collaborator would have produced.  Machine integers are `Int`/`Nat`;
times are `Nat` parameters; fallible code returns `Except`.
-/

namespace Squash

/-- Error kinds distinguished by `errdefs` in the source
(`IsNotFound`, `IsAlreadyExists`, `ErrInvalidArgument`). -/
inductive ErrKind where
  | notFound
  | invalidArgument
  | alreadyExists
  | other
deriving DecidableEq

/-- An error value: a kind (what `errdefs.Is*` would report, preserved by
`%w` wrapping) and a message. -/
structure Err where
  kind : ErrKind
  msg : String
deriving DecidableEq

/-- Models `fmt.Errorf("<pre>%w", e)`: wraps the message, preserves the kind. -/
def wrapErr (pre : String) (e : Err) : Err :=
  { kind := e.kind, msg := pre ++ e.msg }

/-- OCI content descriptor (`ocispec.Descriptor`): media type, digest, size. -/
structure Descriptor where
  mediaType : String
  digest : String
  size : Int
deriving DecidableEq

/-- OCI image manifest (`ocispec.Manifest`): config descriptor plus the
ordered layer descriptors. -/
structure Manifest where
  config : Descriptor
  layers : List Descriptor
deriving DecidableEq

/-- One history entry of an image config (`ocispec.History`). -/
structure History where
  created : Option Nat
  createdBy : String
  author : String
  comment : String
  emptyLayer : Bool
deriving DecidableEq

/-- The `ocispec.RootFS` record: a type tag and the ordered diffID sequence. -/
structure RootFS where
  fsType : String
  diffIDs : List String
deriving DecidableEq

/-- OCI image config (`ocispec.Image`), with the embedded platform
flattened to its architecture/os fields and the opaque runtime config
modelled as a token. -/
structure ImageCfg where
  created : Option Nat
  author : String
  architecture : String
  os : String
  config : String
  rootfs : RootFS
  history : List History
deriving DecidableEq

/-- The fields of `types.ImageSquashOptions` that the core reads. -/
structure SquashOptions where
  sourceImageRef : String
  targetImageName : String
  author : String
  message : String
  squashLayerCount : Int
  squashLayerDigest : String
deriving DecidableEq

/-- The in-memory `squashImage`: decoded config plus manifest. -/
structure SquashImage where
  config : ImageCfg
  manifest : Manifest
deriving DecidableEq

/-- Constant `images.MediaTypeDockerSchema2Manifest`. -/
def MediaTypeDockerSchema2Manifest : String :=
  "application/vnd.docker.distribution.manifest.v2+json"

/-- Constant `images.MediaTypeDockerSchema2Config`. -/
def MediaTypeDockerSchema2Config : String :=
  "application/vnd.docker.container.image.v1+json"

/-- Constant `images.MediaTypeDockerSchema2LayerGzip`. -/
def MediaTypeDockerSchema2LayerGzip : String :=
  "application/vnd.docker.image.rootfs.diff.tar.gzip"

/-- Models the external `identity.ChainID`: a deterministic digest of an
ordered diffID sequence (the concrete hash is irrelevant to the claims,
only that it is a pure function of the ordered list). -/
def chainID (diffIDs : List String) : String :=
  String.intercalate "," diffIDs

/-- The digest-mode scan loop of `generateSquashLayer` (squash.go lines
100-109): walk the layers with a `find` flag; the flag is set when a
layer's digest equals the target, and every layer seen while the flag is
set (the matching one included) is collected.  Returns the final flag and
the collected layers. -/
def collectSquashLayers (target : String) :
    List Descriptor → Bool → (Bool × List Descriptor)
  | [], find => (find, [])
  | l :: rest, find =>
    let find2 := if l.digest = target then true else find
    let res := collectSquashLayers target rest find2
    (res.1, if find2 then l :: res.2 else res.2)

/-- Embeds `generateSquashLayer` (squash.go lines 97-122): digest mode takes
priority when the digest option is non-empty (NotFound when no layer
matches); otherwise count mode requires `1 < count <= len(layers)` and
returns the last `count` layers; anything else is InvalidArgument. -/
def generateSquashLayer (opt : SquashOptions) (m : Manifest) :
    Except Err (List Descriptor) :=
  if opt.squashLayerDigest ≠ "" then
    let scan := collectSquashLayers opt.squashLayerDigest m.layers false
    if scan.1 then
      .ok scan.2
    else
      .error { kind := .notFound,
               msg := "layer digest " ++ opt.squashLayerDigest ++
                      " not found in the image: not found" }
  else if 1 < opt.squashLayerCount ∧
          opt.squashLayerCount ≤ (m.layers.length : Int) then
    .ok (m.layers.drop (m.layers.length - opt.squashLayerCount.toNat))
  else
    .error { kind := .invalidArgument, msg := "invalid squash option: invalid argument" }

/-- The history-trimming loop of `generateBaseImageConfig` (squash.go
lines 165-180): empty-layer entries are appended unconditionally; a
non-empty-layer entry is appended only while `count+1 <= remaining`
(incrementing `count`), and the first non-empty entry beyond that stops
the iteration entirely (`break`). -/
def squashHistory (remaining : Nat) :
    List History → Nat → List History
  | [], _ => []
  | h :: t, count =>
    if h.emptyLayer then
      h :: squashHistory remaining t count
    else if count + 1 ≤ remaining then
      h :: squashHistory remaining t (count + 1)
    else
      []

/-- Embeds `generateBaseImageConfig` (squash.go lines 158-193), applied to the
original config it reads back: created is set to now; author, platform and
runtime config are copied; rootfs keeps the original type with the diffIDs
truncated to the first `remaining` entries (the Go slice
`DiffIDs[:remaining]` requires `remaining ≤ len(DiffIDs)`); history is the
trimmed walk. -/
def generateBaseImageConfig (orig : ImageCfg) (remainingLayerCount : Nat)
    (now : Nat) : ImageCfg :=
  { created := some now
    author := orig.author
    architecture := orig.architecture
    os := orig.os
    config := orig.config
    rootfs := { fsType := orig.rootfs.fsType
                diffIDs := orig.rootfs.diffIDs.take remainingLayerCount }
    history := squashHistory remainingLayerCount orig.history 0 }

/-- Embeds `generateCommitImageConfig` (squash.go lines 277-316): architecture/os
fall back to the host values when the base leaves them empty; the author
is the trimmed override when non-empty, else the base author; the comment
is the trimmed commit message; rootfs type is the literal "layers" with
the new diffID appended; history gains one non-empty-layer entry. -/
def generateCommitImageConfig (opt : SquashOptions) (hostArch hostOS : String)
    (now : Nat) (baseConfig : ImageCfg) (diffID : String) : ImageCfg :=
  let arch := if baseConfig.architecture = "" then hostArch
              else baseConfig.architecture
  let osName := if baseConfig.os = "" then hostOS else baseConfig.os
  let author := if opt.author.trim = "" then baseConfig.author
                else opt.author.trim
  let comment := opt.message.trim
  { created := some now
    author := author
    architecture := arch
    os := osName
    config := baseConfig.config
    rootfs := { fsType := "layers"
                diffIDs := baseConfig.rootfs.diffIDs ++ [diffID] }
    history := baseConfig.history ++
      [{ created := some now
         createdBy := ""
         author := author
         comment := comment
         emptyLayer := false }] }

/-- Once the `find` flag is set, the scan collects every remaining layer. -/
theorem collectSquashLayers_flag_set (t : String) (ls : List Descriptor) :
    collectSquashLayers t ls true = (true, ls) := by
  induction ls with
  | nil => rfl
  | cons l ls ih => simp [collectSquashLayers, ih]

/-- The scan started with the flag unset returns whether any layer matches,
together with the suffix starting at the first match. -/
theorem collectSquashLayers_eq (t : String) (ls : List Descriptor) :
    collectSquashLayers t ls false =
      (ls.any (fun l => l.digest == t),
       ls.dropWhile (fun l => l.digest != t)) := by
  induction ls with
  | nil => rfl
  | cons l ls ih =>
    by_cases hl : l.digest = t
    · simp [collectSquashLayers, hl, collectSquashLayers_flag_set,
        List.dropWhile_cons]
    · simp [collectSquashLayers, hl, List.dropWhile_cons, ih]

/-- When some element of the list fails the predicate, `dropWhile` is
non-empty and its head fails the predicate. -/
theorem head_dropWhile_of_exists {α : Type} (p : α → Bool) (ls : List α)
    (h : ∃ x ∈ ls, p x = false) :
    ∃ hd rest, ls.dropWhile p = hd :: rest ∧ p hd = false := by
  induction ls with
  | nil => simp at h
  | cons a ls ih =>
    by_cases ha : p a = true
    · rw [List.dropWhile_cons, if_pos ha]
      apply ih
      rcases h with ⟨x, hx, hpx⟩
      rcases List.mem_cons.mp hx with rfl | hx2
      · rw [ha] at hpx; cases hpx
      · exact ⟨x, hx2, hpx⟩
    · rw [List.dropWhile_cons, if_neg ha]
      exact ⟨a, ls, rfl, by simpa using ha⟩

/-- When every element of the first list satisfies the predicate,
`dropWhile` skips past it. -/
theorem dropWhile_append_of_all {α : Type} (p : α → Bool) (l1 l2 : List α)
    (h : ∀ x ∈ l1, p x = true) :
    (l1 ++ l2).dropWhile p = l2.dropWhile p := by
  induction l1 with
  | nil => rfl
  | cons a l ih =>
    rw [List.cons_append, List.dropWhile_cons, if_pos (h a (List.mem_cons_self a l))]
    exact ih (fun x hx => h x (List.mem_cons_of_mem a hx))

/-- C2: with an empty selector digest, `generateSquashLayer` returns
exactly the last `count` layers (in original order) when
`1 < count <= len(layers)`, and fails with InvalidArgument for every
other count. -/
theorem generateSquashLayer_count_mode (opt : SquashOptions) (m : Manifest)
    (hd : opt.squashLayerDigest = "") :
    (1 < opt.squashLayerCount ∧
        opt.squashLayerCount ≤ (m.layers.length : Int) →
      generateSquashLayer opt m =
        .ok (m.layers.drop (m.layers.length - opt.squashLayerCount.toNat)) ∧
      (m.layers.drop (m.layers.length - opt.squashLayerCount.toNat)).length =
        opt.squashLayerCount.toNat ∧
      m.layers.take (m.layers.length - opt.squashLayerCount.toNat) ++
        m.layers.drop (m.layers.length - opt.squashLayerCount.toNat) =
        m.layers) ∧
    (¬(1 < opt.squashLayerCount ∧
        opt.squashLayerCount ≤ (m.layers.length : Int)) →
      ∃ e, generateSquashLayer opt m = .error e ∧
        e.kind = ErrKind.invalidArgument) := by
  constructor
  · intro h
    have htn : opt.squashLayerCount.toNat ≤ m.layers.length := by
      exact_mod_cast Int.toNat_le.mpr h.2
    refine ⟨?_, ?_, List.take_append_drop _ _⟩
    · simp [generateSquashLayer, hd, h]
    · rw [List.length_drop]
      omega
  · intro h
    refine ⟨{ kind := ErrKind.invalidArgument,
              msg := "invalid squash option: invalid argument" }, ?_, rfl⟩
    simp [generateSquashLayer, hd, h]

/-- C3: with a non-empty selector digest, `generateSquashLayer` returns
the contiguous suffix starting at the first layer whose digest matches,
and fails with NotFound exactly when no layer matches. -/
theorem generateSquashLayer_digest_mode (opt : SquashOptions) (m : Manifest)
    (hne : opt.squashLayerDigest ≠ "") :
    ((∃ l ∈ m.layers, l.digest = opt.squashLayerDigest) →
      generateSquashLayer opt m =
        .ok (m.layers.dropWhile
          (fun l => l.digest != opt.squashLayerDigest)) ∧
      m.layers.takeWhile (fun l => l.digest != opt.squashLayerDigest) ++
        m.layers.dropWhile (fun l => l.digest != opt.squashLayerDigest) =
        m.layers ∧
      (∀ l ∈ m.layers.takeWhile (fun l => l.digest != opt.squashLayerDigest),
        l.digest ≠ opt.squashLayerDigest) ∧
      (∃ hd rest,
        m.layers.dropWhile (fun l => l.digest != opt.squashLayerDigest) =
          hd :: rest ∧
        hd.digest = opt.squashLayerDigest)) ∧
    ((∃ e, generateSquashLayer opt m = .error e ∧
        e.kind = ErrKind.notFound) ↔
      ∀ l ∈ m.layers, l.digest ≠ opt.squashLayerDigest) := by
  constructor
  · intro hex
    have hany : m.layers.any (fun l => l.digest == opt.squashLayerDigest)
        = true := by
      rcases hex with ⟨l, hl, he⟩
      exact List.any_eq_true.mpr ⟨l, hl, by simpa using he⟩
    refine ⟨?_, List.takeWhile_append_dropWhile _ _, ?_, ?_⟩
    · simp [generateSquashLayer, hne, collectSquashLayers_eq, hany]
    · intro l hl
      have := List.mem_takeWhile_imp hl
      simpa using this
    · have := head_dropWhile_of_exists
        (fun l => l.digest != opt.squashLayerDigest) m.layers ?_
      · rcases this with ⟨hd, rest, hdr, hph⟩
        exact ⟨hd, rest, hdr, by simpa using hph⟩
      · rcases hex with ⟨l, hl, he⟩
        exact ⟨l, hl, by simpa using he⟩
  · constructor
    · rintro ⟨e, he, _⟩ l hl hdig
      have hany : m.layers.any (fun l => l.digest == opt.squashLayerDigest)
          = true :=
        List.any_eq_true.mpr ⟨l, hl, by simpa using hdig⟩
      simp [generateSquashLayer, hne, collectSquashLayers_eq, hany] at he
    · intro hall
      have hany : m.layers.any (fun l => l.digest == opt.squashLayerDigest)
          = false := by
        rw [List.any_eq_false]
        intro l hl
        simpa using hall l hl
      refine ⟨{ kind := ErrKind.notFound,
                msg := "layer digest " ++ opt.squashLayerDigest ++
                       " not found in the image: not found" }, ?_, rfl⟩
      simp [generateSquashLayer, hne, collectSquashLayers_eq, hany]

/-- Concrete descriptor used by the closed evaluation theorems. -/
def dA : Descriptor := { mediaType := "", digest := "sha256:a", size := 0 }

/-- Concrete descriptor used by the closed evaluation theorems. -/
def dB : Descriptor := { mediaType := "", digest := "sha256:b", size := 0 }

/-- Concrete descriptor used by the closed evaluation theorems. -/
def dC : Descriptor := { mediaType := "", digest := "sha256:c", size := 0 }

/-- A three-layer manifest. -/
def mABC : Manifest := { config := dA, layers := [dA, dB, dC] }

/-- Options selecting by count 2 (digest empty). -/
def optCount2 : SquashOptions :=
  { sourceImageRef := "", targetImageName := "", author := "", message := "",
    squashLayerCount := 2, squashLayerDigest := "" }

/-- Options selecting by count 1 (digest empty). -/
def optCount1 : SquashOptions :=
  { sourceImageRef := "", targetImageName := "", author := "", message := "",
    squashLayerCount := 1, squashLayerDigest := "" }

/-- Options selecting by the digest of `dB`. -/
def optDigB : SquashOptions :=
  { sourceImageRef := "", targetImageName := "", author := "", message := "",
    squashLayerCount := 0, squashLayerDigest := "sha256:b" }

/-- Options selecting by the digest of `dA`. -/
def optDigA : SquashOptions :=
  { sourceImageRef := "", targetImageName := "", author := "", message := "",
    squashLayerCount := 0, squashLayerDigest := "sha256:a" }

/-- A manifest whose two layers share one digest. -/
def mDupA : Manifest := { config := dA, layers := [dA, dA] }

/-- A single-layer manifest. -/
def mSingleA : Manifest := { config := dA, layers := [dA] }

/-- Witness for C2: selecting 2 of 3 layers returns the last two. -/
theorem generateSquashLayer_count_mode_witness :
    generateSquashLayer optCount2 mABC = .ok [dB, dC] := by
  have h := (generateSquashLayer_count_mode optCount2 mABC rfl).1
    (by constructor <;> decide)
  exact h.1.trans (by rfl)

/-- Witness for C3: selecting by the middle layer's digest returns the
suffix from that layer on. -/
theorem generateSquashLayer_digest_mode_witness :
    generateSquashLayer optDigB mABC = .ok [dB, dC] := by
  have h := (generateSquashLayer_digest_mode optDigB mABC (by decide)).1
    ⟨dB, by decide, rfl⟩
  exact h.1.trans (by rfl)

/-- Counterexample for C9 as stated: in this manifest the last layer's
digest equals the target, yet the selection returns two layers, not a
one-element suffix, because an earlier layer carries the same digest. -/
theorem generateSquashLayer_last_match_cex :
    mDupA.layers.getLast? = some dA ∧
    dA.digest = optDigA.squashLayerDigest ∧
    generateSquashLayer optDigA mDupA = .ok [dA, dA] ∧
    ¬ ∃ l : Descriptor, generateSquashLayer optDigA mDupA = .ok [l] := by
  refine ⟨rfl, rfl, by rfl, ?_⟩
  rintro ⟨l, hl⟩
  rw [show generateSquashLayer optDigA mDupA = .ok [dA, dA] from rfl] at hl
  simp at hl

/-- C9 (amended): digest mode imposes no minimum suffix size.  When the
last layer is the only match the result is that single layer; when the
first layer matches the whole sequence is returned; and count mode with
count 1 always fails with InvalidArgument. -/
theorem generateSquashLayer_digest_no_minimum (opt : SquashOptions)
    (m : Manifest) (hne : opt.squashLayerDigest ≠ "") :
    (∀ pre lst, m.layers = pre ++ [lst] →
       lst.digest = opt.squashLayerDigest →
       (∀ l ∈ pre, l.digest ≠ opt.squashLayerDigest) →
       generateSquashLayer opt m = .ok [lst]) ∧
    (∀ fst rest, m.layers = fst :: rest →
       fst.digest = opt.squashLayerDigest →
       generateSquashLayer opt m = .ok (fst :: rest)) ∧
    (∀ (opt2 : SquashOptions) (m2 : Manifest),
       opt2.squashLayerDigest = "" → opt2.squashLayerCount = 1 →
       ∃ e, generateSquashLayer opt2 m2 = .error e ∧
         e.kind = ErrKind.invalidArgument) := by
  refine ⟨?_, ?_, ?_⟩
  · intro pre lst hsplit hmatch hpre
    have hany : m.layers.any (fun l => l.digest == opt.squashLayerDigest)
        = true :=
      List.any_eq_true.mpr ⟨lst, by simp [hsplit], by simpa using hmatch⟩
    have hdrop : m.layers.dropWhile
        (fun l => l.digest != opt.squashLayerDigest) = [lst] := by
      rw [hsplit, dropWhile_append_of_all _ pre [lst]
        (fun x hx => by simpa using hpre x hx)]
      simp [List.dropWhile_cons, hmatch]
    simp [generateSquashLayer, hne, collectSquashLayers_eq, hany, hdrop]
  · intro fst rest hsplit hmatch
    have hany : m.layers.any (fun l => l.digest == opt.squashLayerDigest)
        = true :=
      List.any_eq_true.mpr ⟨fst, by simp [hsplit], by simpa using hmatch⟩
    have hdrop : m.layers.dropWhile
        (fun l => l.digest != opt.squashLayerDigest) = fst :: rest := by
      rw [hsplit]
      simp [List.dropWhile_cons, hmatch]
    simp [generateSquashLayer, hne, collectSquashLayers_eq, hany, hdrop]
  · intro opt2 m2 h1 h2
    refine ⟨{ kind := ErrKind.invalidArgument,
              msg := "invalid squash option: invalid argument" }, ?_, rfl⟩
    simp [generateSquashLayer, h1, h2]

/-- Witness for C9 (amended): on a single-layer image, digest mode
succeeds with the full (one-element) sequence while count-1 selection
fails with InvalidArgument. -/
theorem generateSquashLayer_digest_no_minimum_witness :
    generateSquashLayer optDigA mSingleA = .ok [dA] ∧
    ∃ e, generateSquashLayer optCount1 mSingleA = .error e ∧
      e.kind = ErrKind.invalidArgument := by
  have h := generateSquashLayer_digest_no_minimum optDigA mSingleA (by decide)
  exact ⟨h.1 [] dA rfl rfl (by simp), h.2.2 optCount1 mSingleA rfl rfl⟩

/-- Number of non-empty-layer entries of a history. -/
def countNonEmptyHistory (l : List History) : Nat :=
  (l.filter (fun h => !h.emptyLayer)).length

/-- The trimming loop keeps at most `remaining - count` further
non-empty-layer entries. -/
theorem squashHistory_count_le (remaining : Nat) :
    ∀ (l : List History) (count : Nat), count ≤ remaining →
      countNonEmptyHistory (squashHistory remaining l count) ≤
        remaining - count := by
  intro l
  induction l with
  | nil =>
    intro count _
    simp [squashHistory, countNonEmptyHistory]
  | cons h t ih =>
    intro count hc
    by_cases he : h.emptyLayer
    · simpa [squashHistory, he, countNonEmptyHistory, List.filter_cons]
        using ih count hc
    · by_cases hcount : count + 1 ≤ remaining
      · have hrec := ih (count + 1) hcount
        have hstep : squashHistory remaining (h :: t) count =
            h :: squashHistory remaining t (count + 1) := by
          simp [squashHistory, he, hcount]
        have hcnt : countNonEmptyHistory
            (h :: squashHistory remaining t (count + 1)) =
            countNonEmptyHistory (squashHistory remaining t (count + 1)) + 1 := by
          simp [countNonEmptyHistory, List.filter_cons, he]
        rw [hstep, hcnt]
        omega
      · simp [squashHistory, he, hcount, countNonEmptyHistory]

/-- The trimming loop returns an order-preserving subsequence of the
original history. -/
theorem squashHistory_sublist (remaining : Nat) :
    ∀ (l : List History) (count : Nat),
      List.Sublist (squashHistory remaining l count) l := by
  intro l
  induction l with
  | nil =>
    intro count
    rw [show squashHistory remaining [] count = [] from rfl]
  | cons h t ih =>
    intro count
    by_cases he : h.emptyLayer
    · simpa [squashHistory, he] using (ih count).cons₂ h
    · by_cases hcount : count + 1 ≤ remaining
      · simpa [squashHistory, he, hcount] using (ih (count + 1)).cons₂ h
      · simp [squashHistory, he, hcount]

/-- The empty-layer entries kept by the trimming loop are an initial
segment of the original history's empty-layer entries. -/
theorem squashHistory_empty_take (remaining : Nat) :
    ∀ (l : List History) (count : Nat),
      ∃ n, (squashHistory remaining l count).filter (fun h => h.emptyLayer) =
        (l.filter (fun h => h.emptyLayer)).take n := by
  intro l
  induction l with
  | nil => intro count; exact ⟨0, rfl⟩
  | cons h t ih =>
    intro count
    by_cases he : h.emptyLayer
    · rcases ih count with ⟨n, hn⟩
      refine ⟨n + 1, ?_⟩
      simp [squashHistory, he, List.filter_cons, hn]
    · by_cases hcount : count + 1 ≤ remaining
      · rcases ih (count + 1) with ⟨n, hn⟩
        refine ⟨n, ?_⟩
        simp [squashHistory, he, hcount, List.filter_cons, hn]
      · exact ⟨0, by simp [squashHistory, he, hcount]⟩

/-- When the whole history holds at most `remaining - count` further
non-empty-layer entries, the trimming loop keeps everything. -/
theorem squashHistory_all_of_le (remaining : Nat) :
    ∀ (l : List History) (count : Nat),
      countNonEmptyHistory l + count ≤ remaining →
      squashHistory remaining l count = l := by
  intro l
  induction l with
  | nil => intro count _; rfl
  | cons h t ih =>
    intro count hc
    by_cases he : h.emptyLayer
    · have hc2 : countNonEmptyHistory t + count ≤ remaining := by
        simpa [countNonEmptyHistory, List.filter_cons, he] using hc
      simp [squashHistory, he, ih count hc2]
    · have hc2 : countNonEmptyHistory t + (count + 1) ≤ remaining := by
        simp only [countNonEmptyHistory, List.filter_cons, he,
          Bool.not_false, if_pos, List.length_cons] at hc ⊢
        omega
      have hcount : count + 1 ≤ remaining := by omega
      simp [squashHistory, he, hcount, ih (count + 1) hc2]

/-- History entry with `emptyLayer = false`. -/
def histNE : History :=
  { created := none, createdBy := "", author := "", comment := "",
    emptyLayer := false }

/-- History entry with `emptyLayer = true`. -/
def histE : History :=
  { created := none, createdBy := "", author := "", comment := "",
    emptyLayer := true }

/-- A config whose history is a non-empty-layer entry followed by an
empty-layer entry, with no diffIDs. -/
def cfgDropEmpty : ImageCfg :=
  { created := none, author := "", architecture := "", os := "",
    config := "", rootfs := { fsType := "layers", diffIDs := [] },
    history := [histNE, histE] }

/-- Counterexample for C1 as stated: with `remaining = 0` (which satisfies
`remaining <= len(diffIDs)`), the original history's empty-layer entry is
dropped, because the loop stops at the first rejected non-empty entry. -/
theorem generateBaseImageConfig_drops_trailing_empty :
    0 ≤ cfgDropEmpty.rootfs.diffIDs.length ∧
    cfgDropEmpty.history.filter (fun x => x.emptyLayer) = [histE] ∧
    (generateBaseImageConfig cfgDropEmpty 0 0).history = [] ∧
    (generateBaseImageConfig cfgDropEmpty 0 0).history.filter
        (fun x => x.emptyLayer) ≠
      cfgDropEmpty.history.filter (fun x => x.emptyLayer) := by
  refine ⟨Nat.zero_le _, rfl, rfl, ?_⟩
  intro h
  rw [show (generateBaseImageConfig cfgDropEmpty 0 0).history.filter
      (fun x => x.emptyLayer) = [] from rfl,
    show cfgDropEmpty.history.filter (fun x => x.emptyLayer) = [histE]
      from rfl] at h
  exact List.noConfusion h

/-- C1 (amended): the base config's diffIDs are exactly the first
`remaining` original diffIDs (hence of length `remaining`); its history
is an order-preserving subsequence of the original with at most
`remaining` non-empty-layer entries; the kept empty-layer entries are an
initial segment of the original's empty-layer entries, and all of them
are kept whenever the original history has at most `remaining`
non-empty-layer entries. -/
theorem generateBaseImageConfig_spec (orig : ImageCfg) (remaining now : Nat)
    (h : remaining ≤ orig.rootfs.diffIDs.length) :
    (generateBaseImageConfig orig remaining now).rootfs.diffIDs =
      orig.rootfs.diffIDs.take remaining ∧
    (generateBaseImageConfig orig remaining now).rootfs.diffIDs.length =
      remaining ∧
    countNonEmptyHistory
        (generateBaseImageConfig orig remaining now).history ≤ remaining ∧
    List.Sublist (generateBaseImageConfig orig remaining now).history
      orig.history ∧
    (∃ n, (generateBaseImageConfig orig remaining now).history.filter
        (fun x => x.emptyLayer) =
      (orig.history.filter (fun x => x.emptyLayer)).take n) ∧
    (countNonEmptyHistory orig.history ≤ remaining →
      (generateBaseImageConfig orig remaining now).history = orig.history) := by
  refine ⟨rfl, ?_, ?_, ?_, ?_, ?_⟩
  · simp [generateBaseImageConfig, List.length_take]
    omega
  · simpa using squashHistory_count_le remaining orig.history 0
      (Nat.zero_le _)
  · exact squashHistory_sublist remaining orig.history 0
  · exact squashHistory_empty_take remaining orig.history 0
  · intro hle
    exact squashHistory_all_of_le remaining orig.history 0 (by omega)

/-- A config with two diffIDs and a mixed history, for the C1 witness. -/
def cfgW1 : ImageCfg :=
  { created := none, author := "", architecture := "", os := "",
    config := "", rootfs := { fsType := "layers", diffIDs := ["d1", "d2"] },
    history := [histNE, histE, histNE] }

/-- Witness for C1 (amended) at a concrete config with `remaining = 1`. -/
theorem generateBaseImageConfig_spec_witness :
    (generateBaseImageConfig cfgW1 1 0).rootfs.diffIDs = ["d1"] ∧
    countNonEmptyHistory (generateBaseImageConfig cfgW1 1 0).history ≤ 1 := by
  have h := generateBaseImageConfig_spec cfgW1 1 0 (by decide)
  exact ⟨h.1.trans (by rfl), h.2.2.1⟩

/-- C8: the commit config appends the new diffID to the base diffIDs and
appends one history entry whose author is the trimmed override when
non-empty (else the base author), whose comment is the trimmed commit
message, and whose emptyLayer flag is false. -/
theorem generateCommitImageConfig_spec (opt : SquashOptions)
    (ha ho : String) (now : Nat) (base : ImageCfg) (diffID : String) :
    (generateCommitImageConfig opt ha ho now base diffID).rootfs.diffIDs =
      base.rootfs.diffIDs ++ [diffID] ∧
    ∃ entry : History,
      (generateCommitImageConfig opt ha ho now base diffID).history =
        base.history ++ [entry] ∧
      entry.created = some now ∧
      entry.createdBy = "" ∧
      entry.comment = opt.message.trim ∧
      entry.emptyLayer = false ∧
      (opt.author.trim ≠ "" → entry.author = opt.author.trim) ∧
      (opt.author.trim = "" → entry.author = base.author) := by
  refine ⟨rfl, _, rfl, rfl, rfl, rfl, rfl, ?_, ?_⟩
  · intro hne
    simp only [if_neg hne]
  · intro he
    simp only [if_pos he]

/-- C10: the commit config always sets the rootfs type to the literal
"layers", while the base config copies the original rootfs type verbatim. -/
theorem rootfsType_policy :
    (∀ (opt : SquashOptions) (ha ho : String) (now : Nat) (base : ImageCfg)
        (diffID : String),
      (generateCommitImageConfig opt ha ho now base diffID).rootfs.fsType =
        "layers") ∧
    (∀ (orig : ImageCfg) (remaining now : Nat),
      (generateBaseImageConfig orig remaining now).rootfs.fsType =
        orig.rootfs.fsType) :=
  ⟨fun _ _ _ _ _ _ => rfl, fun _ _ _ => rfl⟩

/-- Result of `contentStore.Info`: blob size and labels. -/
structure Info where
  size : Int
  labels : List (String × String)
deriving DecidableEq

/-- The anonymous manifest struct serialized by `writeContentsForImage`:
a media type alongside the OCI manifest fields. -/
structure ManifestOut where
  mediaType : String
  schemaVersion : Nat
  config : Descriptor
  layers : List Descriptor
deriving DecidableEq

/-- Observable side effects of the pipeline on its collaborators. -/
inductive Event where
  | preparedSnapshot
  | appliedLayer (d : Descriptor)
  | removedSnapshot
  | committedSnapshot
  | wroteManifestBlob
  | wroteConfigBlob
  | calledUpdate
  | calledCreate
  | updatedImage
  | createdImage
  | unpacked
deriving DecidableEq

/-- Environment of one `Squash` invocation: the options plus the result
each external collaborator call would produce (image store reads, lease
creation, snapshot prepare/commit/remove, per-layer diff application,
diff creation and its content-info read-back, JSON marshalling, digest
hashing, blob writes, image-record update/create, unpack). -/
structure SquashEnv where
  opt : SquashOptions
  hostArch : String
  hostOS : String
  now : Nat
  snapshotterName : String
  readImage : Except Err SquashImage
  lease : Except Err Unit
  readConfig : Except Err ImageCfg
  prepareRes : Except Err Unit
  applyRes : Descriptor → Except Err Unit
  createDiffRaw : Except Err Descriptor
  infoRes : Except Err Info
  digestParse : String → Except Err String
  commitRes : Except Err Unit
  removeRes : Except Err Unit
  marshalImage : ImageCfg → String
  marshalManifest : ManifestOut → String
  hashBytes : String → String
  writeManifestRes : Except Err Unit
  writeConfigRes : Except Err Unit
  updateRes : Except Err Unit
  createRes : Except Err Unit
  unpackRes : Except Err Unit

/-- Embeds `applyLayersToSnapshot` (squash.go lines 124-131): apply each
layer in order, stopping at the first failure. -/
def applyLayersToSnapshot (applyFn : Descriptor → Except Err Unit) :
    List Descriptor → Except Err Unit × List Event
  | [] => (.ok (), [])
  | l :: rest =>
    match applyFn l with
    | .error e => (.error e, [])
    | .ok _ =>
      let res := applyLayersToSnapshot applyFn rest
      (res.1, .appliedLayer l :: res.2)

/-- Embeds `createDiff` (squash.go lines 134-156): create the diff, read
the content info back, require the `containerd.io/uncompressed` label and
parse it as the diffID; the returned descriptor carries the gzip layer
media type, the diff digest and the content size. -/
def createDiff (raw : Except Err Descriptor) (info : Except Err Info)
    (parse : String → Except Err String) :
    Except Err (Descriptor × String) :=
  match raw with
  | .error e => .error e
  | .ok newDesc =>
    match info with
    | .error e => .error e
    | .ok i =>
      match i.labels.lookup "containerd.io/uncompressed" with
      | none =>
        .error { kind := .other, msg := "invalid differ response with no diffID" }
      | some diffIDStr =>
        match parse diffIDStr with
        | .error e => .error e
        | .ok diffID =>
          .ok ({ mediaType := MediaTypeDockerSchema2LayerGzip,
                 digest := newDesc.digest,
                 size := i.size }, diffID)

/-- Embeds `applyDiffLayer` (squash.go lines 380-422): prepare a scratch
snapshot parented at the base chain-id; apply the squash layers; create
the diff; commit under the chain-id of base-diffIDs plus the new diffID.
The deferred cleanup removes the scratch snapshot on every error return;
a commit failure with AlreadyExists is treated as success. -/
def applyDiffLayer (env : SquashEnv) (baseImg : ImageCfg)
    (layers : List Descriptor) :
    Except Err (Descriptor × String × String) × List Event :=
  match env.prepareRes with
  | .error e => (.error e, [])
  | .ok _ =>
    let ar := applyLayersToSnapshot env.applyRes layers
    match ar.1 with
    | .error e =>
      (.error e, .preparedSnapshot :: ar.2 ++ [.removedSnapshot])
    | .ok _ =>
      match createDiff env.createDiffRaw env.infoRes env.digestParse with
      | .error e =>
        (.error (wrapErr "failed to export layer: " e),
         .preparedSnapshot :: ar.2 ++ [.removedSnapshot])
      | .ok dd =>
        let snapshotID := chainID (baseImg.rootfs.diffIDs ++ [dd.2])
        match env.commitRes with
        | .error e =>
          if e.kind = ErrKind.alreadyExists then
            (.ok (dd.1, dd.2, snapshotID), .preparedSnapshot :: ar.2)
          else
            (.error e, .preparedSnapshot :: ar.2 ++ [.removedSnapshot])
        | .ok _ =>
          (.ok (dd.1, dd.2, snapshotID),
           .preparedSnapshot :: ar.2 ++ [.committedSnapshot])

/-- The config descriptor built by `writeContentsForImage` (lines
198-207): digest and size of the marshalled config. -/
def configDescFor (env : SquashEnv) (cfg : ImageCfg) : Descriptor :=
  { mediaType := MediaTypeDockerSchema2Config,
    digest := env.hashBytes (env.marshalImage cfg),
    size := ((env.marshalImage cfg).length : Int) }

/-- The manifest built by `writeContentsForImage` (lines 209-223): config
descriptor plus `baseImageLayers ++ [diffLayerDesc]`. -/
def newManifest (configDesc : Descriptor) (layers : List Descriptor) :
    ManifestOut :=
  { mediaType := MediaTypeDockerSchema2Manifest, schemaVersion := 2,
    config := configDesc, layers := layers }

/-- The manifest descriptor (lines 230-234). -/
def mfstDescFor (env : SquashEnv) (mo : ManifestOut) : Descriptor :=
  { mediaType := MediaTypeDockerSchema2Manifest,
    digest := env.hashBytes (env.marshalManifest mo),
    size := ((env.marshalManifest mo).length : Int) }

/-- The GC reference labels put on the manifest blob (lines 236-242):
index 0 names the config digest and index `i+1` names the digest of
`layers[i]`. -/
def gcLabels (configDesc : Descriptor) (layers : List Descriptor) :
    List (String × String) :=
  ("containerd.io/gc.ref.content.0", configDesc.digest) ::
    layers.enum.map
      (fun p => ("containerd.io/gc.ref.content." ++ toString (p.1 + 1),
                 p.2.digest))

/-- The GC snapshot label put on the config blob (lines 249-252). -/
def snapshotLabels (snName : String) (cfg : ImageCfg) :
    List (String × String) :=
  [("containerd.io/gc.ref.snapshot." ++ snName, chainID cfg.rootfs.diffIDs)]

/-- Embeds `writeContentsForImage` (squash.go lines 196-258): build config
and manifest descriptors, write the manifest blob (with `gcLabels`), then
the config blob (with `snapshotLabels`); return the manifest descriptor
and the config digest. -/
def writeContentsForImage (env : SquashEnv) (snName : String)
    (newConfig : ImageCfg) (baseImageLayers : List Descriptor)
    (diffLayerDesc : Descriptor) :
    Except Err (Descriptor × String) × List Event :=
  let configDesc := configDescFor env newConfig
  let layers := baseImageLayers ++ [diffLayerDesc]
  let newMfstDesc := mfstDescFor env (newManifest configDesc layers)
  let _labels := gcLabels configDesc layers
  let _snLabels := snapshotLabels snName newConfig
  match env.writeManifestRes with
  | .error e => (.error e, [])
  | .ok _ =>
    match env.writeConfigRes with
    | .error e => (.error e, [.wroteManifestBlob])
    | .ok _ =>
      (.ok (newMfstDesc, configDesc.digest),
       [.wroteManifestBlob, .wroteConfigBlob])

/-- Embeds `createSquashImage` (squash.go lines 260-274): try Update
first; only when it fails with NotFound try Create; wrap and return all
other failures. -/
def createSquashImage (env : SquashEnv) : Except Err Unit × List Event :=
  match env.updateRes with
  | .ok _ => (.ok (), [.calledUpdate, .updatedImage])
  | .error e =>
    if e.kind = ErrKind.notFound then
      match env.createRes with
      | .ok _ => (.ok (), [.calledUpdate, .calledCreate, .createdImage])
      | .error e2 =>
        (.error (wrapErr ("failed to create new squashImage " ++
            env.opt.targetImageName ++ ": ") e2),
         [.calledUpdate, .calledCreate])
    else
      (.error (wrapErr ("failed to update new squashImage " ++
          env.opt.targetImageName ++ ": ") e),
       [.calledUpdate])

/-- Embeds the `Squash` orchestration (squash.go lines 319-377):
read the source image, select the squash layers, take the lease, derive
the base config, apply and commit the diff layer, derive the commit
config, write the manifest and config blobs, upsert the image record, and
unpack it. -/
def Squash (env : SquashEnv) : Except Err Unit × List Event :=
  match env.readImage with
  | .error e => (.error e, [])
  | .ok image =>
    match generateSquashLayer env.opt image.manifest with
    | .error e => (.error e, [])
    | .ok sLayers =>
      let remainingLayerCount := image.manifest.layers.length - sLayers.length
      match env.lease with
      | .error e => (.error (wrapErr "failed to create lease for squash: " e), [])
      | .ok _ =>
        match env.readConfig with
        | .error e => (.error e, [])
        | .ok orig =>
          let baseImage :=
            generateBaseImageConfig orig remainingLayerCount env.now
          let adl := applyDiffLayer env baseImage sLayers
          match adl.1 with
          | .error e => (.error e, adl.2)
          | .ok res =>
            let imageConfig := generateCommitImageConfig env.opt env.hostArch
              env.hostOS env.now baseImage res.2.1
            let wc := writeContentsForImage env env.snapshotterName
              imageConfig (image.manifest.layers.take remainingLayerCount)
              res.1
            match wc.1 with
            | .error e => (.error e, adl.2 ++ wc.2)
            | .ok _ =>
              let ci := createSquashImage env
              match ci.1 with
              | .error e => (.error e, adl.2 ++ wc.2 ++ ci.2)
              | .ok _ =>
                match env.unpackRes with
                | .error e => (.error e, adl.2 ++ wc.2 ++ ci.2)
                | .ok _ => (.ok (), adl.2 ++ wc.2 ++ ci.2 ++ [.unpacked])

/-- Every event recorded by the layer-application loop is an
`appliedLayer` event. -/
theorem mem_applyLayers_events (f : Descriptor → Except Err Unit)
    (ls : List Descriptor) (ev : Event)
    (hm : ev ∈ (applyLayersToSnapshot f ls).2) :
    ∃ d, ev = Event.appliedLayer d := by
  induction ls with
  | nil => simp [applyLayersToSnapshot] at hm
  | cons l rest ih =>
    rw [applyLayersToSnapshot] at hm
    cases hf : f l with
    | error e => rw [hf] at hm; simp at hm
    | ok v =>
      rw [hf] at hm
      simp only [List.mem_cons] at hm
      rcases hm with rfl | hm
      · exact ⟨l, rfl⟩
      · exact ih hm

/-- Events other than `appliedLayer` never appear in the
layer-application trace. -/
theorem notMem_applyLayers_events (f : Descriptor → Except Err Unit)
    (ls : List Descriptor) (ev : Event)
    (h : ∀ d, ev ≠ Event.appliedLayer d) :
    ev ∉ (applyLayersToSnapshot f ls).2 := fun hm => by
  obtain ⟨d, hd⟩ := mem_applyLayers_events f ls ev hm
  exact h d hd

/-- C7: the upsert calls Update first; Create is attempted exactly when
Update fails with NotFound; the upsert succeeds when Update succeeds or
when Update fails NotFound and Create succeeds; a non-NotFound Update
failure and a Create failure each make the upsert fail, preserving the
underlying error kind. -/
theorem createSquashImage_upsert (env : SquashEnv) :
    (createSquashImage env).2.head? = some Event.calledUpdate ∧
    (Event.calledCreate ∈ (createSquashImage env).2 ↔
      ∃ e, env.updateRes = .error e ∧ e.kind = ErrKind.notFound) ∧
    (env.updateRes = .ok () → (createSquashImage env).1 = .ok () ∧
      Event.calledCreate ∉ (createSquashImage env).2) ∧
    (∀ e, env.updateRes = .error e → e.kind = ErrKind.notFound →
      env.createRes = .ok () → (createSquashImage env).1 = .ok ()) ∧
    (∀ e, env.updateRes = .error e → e.kind ≠ ErrKind.notFound →
      ∃ e2, (createSquashImage env).1 = .error e2 ∧ e2.kind = e.kind) ∧
    (∀ e e2, env.updateRes = .error e → e.kind = ErrKind.notFound →
      env.createRes = .error e2 →
      ∃ e3, (createSquashImage env).1 = .error e3 ∧ e3.kind = e2.kind) := by
  cases hu : env.updateRes with
  | ok v =>
    cases v
    have hshape : createSquashImage env =
        (.ok (), [Event.calledUpdate, Event.updatedImage]) := by
      simp [createSquashImage, hu]
    rw [hshape]
    refine ⟨rfl, ?_, fun _ => ⟨rfl, by simp⟩, ?_, ?_, ?_⟩
    · constructor
      · intro hmem; simp at hmem
      · rintro ⟨e, he, _⟩; exact Except.noConfusion he
    · intro e he; exact Except.noConfusion he
    · intro e he; exact Except.noConfusion he
    · intro e e2 he; exact Except.noConfusion he
  | error e =>
    by_cases hk : e.kind = ErrKind.notFound
    · cases hc : env.createRes with
      | ok v =>
        cases v
        have hshape : createSquashImage env =
            (.ok (), [Event.calledUpdate, Event.calledCreate,
              Event.createdImage]) := by
          simp [createSquashImage, hu, hk, hc]
        rw [hshape]
        refine ⟨rfl, ?_, ?_, fun _ _ _ _ => rfl, ?_, ?_⟩
        · exact ⟨fun _ => ⟨e, rfl, hk⟩, fun _ => by simp⟩
        · intro h; exact Except.noConfusion h
        · intro e' he' hk'
          injection he' with hee
          subst hee
          exact absurd hk hk'
        · intro e' e2 _ _ hc'
          exact Except.noConfusion hc'
      | error e2 =>
        have hshape : createSquashImage env =
            (.error (wrapErr ("failed to create new squashImage " ++
                env.opt.targetImageName ++ ": ") e2),
             [Event.calledUpdate, Event.calledCreate]) := by
          simp [createSquashImage, hu, hk, hc]
        rw [hshape]
        refine ⟨rfl, ?_, ?_, ?_, ?_, ?_⟩
        · exact ⟨fun _ => ⟨e, rfl, hk⟩, fun _ => by simp⟩
        · intro h; exact Except.noConfusion h
        · intro e' _ _ hc'; exact Except.noConfusion hc'
        · intro e' he' hk'
          injection he' with hee
          subst hee
          exact absurd hk hk'
        · intro e' e2' he' _ hc'
          injection hc' with hee2
          subst hee2
          exact ⟨_, rfl, rfl⟩
    · have hshape : createSquashImage env =
          (.error (wrapErr ("failed to update new squashImage " ++
              env.opt.targetImageName ++ ": ") e),
           [Event.calledUpdate]) := by
        simp [createSquashImage, hu, hk]
      rw [hshape]
      refine ⟨rfl, ?_, ?_, ?_, ?_, ?_⟩
      · constructor
        · intro hmem; simp at hmem
        · rintro ⟨e', he', hk'⟩
          injection he' with hee
          subst hee
          exact absurd hk' hk
      · intro h; exact Except.noConfusion h
      · intro e' he' hk'
        injection he' with hee
        subst hee
        exact absurd hk' hk
      · intro e' he' _
        injection he' with hee
        subst hee
        exact ⟨_, rfl, rfl⟩
      · intro e' e2 he' hk' _
        injection he' with hee
        subst hee
        exact absurd hk' hk

/-- C6: when the snapshot commit fails with AlreadyExists,
`applyDiffLayer` succeeds with exactly the diff descriptor, diffID and
chain-id snapshot name that a successful commit would produce; any other
commit error is returned as a failure. -/
theorem applyDiffLayer_commit_collision (env : SquashEnv)
    (baseImg : ImageCfg) (layers : List Descriptor) (d : Descriptor)
    (i : String) (ce : Err)
    (hp : env.prepareRes = .ok ())
    (ha : (applyLayersToSnapshot env.applyRes layers).1 = .ok ())
    (hd : createDiff env.createDiffRaw env.infoRes env.digestParse =
      .ok (d, i))
    (hc : env.commitRes = .error ce) :
    (ce.kind = ErrKind.alreadyExists →
      (applyDiffLayer env baseImg layers).1 =
        .ok (d, i, chainID (baseImg.rootfs.diffIDs ++ [i])) ∧
      (applyDiffLayer { env with commitRes := .ok () } baseImg layers).1 =
        .ok (d, i, chainID (baseImg.rootfs.diffIDs ++ [i]))) ∧
    (ce.kind ≠ ErrKind.alreadyExists →
      (applyDiffLayer env baseImg layers).1 = .error ce) := by
  constructor
  · intro hk
    constructor
    · simp [applyDiffLayer, hp, ha, hd, hc, hk]
    · simp [applyDiffLayer, hp, ha, hd]
  · intro hk
    simp [applyDiffLayer, hp, ha, hd, hc, hk]

/-- C4: the manifest built by `writeContentsForImage` lists the retained
base layers in original order followed by the new diff descriptor last;
on success the function returns exactly that manifest's descriptor
together with the config digest; and the GC labels on the manifest blob
number exactly N+1 for N final layers, label 0 holding the config digest
and label i+1 holding the digest of layer i. -/
theorem writeContentsForImage_manifest_labels (env : SquashEnv)
    (snName : String) (cfg : ImageCfg) (base : List Descriptor)
    (diff : Descriptor) :
    (newManifest (configDescFor env cfg) (base ++ [diff])).layers =
      base ++ [diff] ∧
    (newManifest (configDescFor env cfg) (base ++ [diff])).layers.getLast? =
      some diff ∧
    (env.writeManifestRes = .ok () → env.writeConfigRes = .ok () →
      writeContentsForImage env snName cfg base diff =
        (.ok (mfstDescFor env
            (newManifest (configDescFor env cfg) (base ++ [diff])),
          (configDescFor env cfg).digest),
         [Event.wroteManifestBlob, Event.wroteConfigBlob])) ∧
    (gcLabels (configDescFor env cfg) (base ++ [diff])).length =
      (base ++ [diff]).length + 1 ∧
    (gcLabels (configDescFor env cfg) (base ++ [diff])).get? 0 =
      some ("containerd.io/gc.ref.content.0",
        (configDescFor env cfg).digest) ∧
    (∀ i (h : i < (base ++ [diff]).length),
      (gcLabels (configDescFor env cfg) (base ++ [diff])).get? (i + 1) =
        some ("containerd.io/gc.ref.content." ++ toString (i + 1),
              ((base ++ [diff]).get ⟨i, h⟩).digest)) := by
  refine ⟨rfl, ?_, ?_, ?_, rfl, ?_⟩
  · simp [newManifest]
  · intro h1 h2
    simp [writeContentsForImage, h1, h2]
  · simp [gcLabels, List.enum_length]
  · intro i h
    simp only [gcLabels, List.get?_cons_succ, List.get?_map]
    rw [List.enum_get? _ _]
    rw [List.get?_eq_get h]
    simp

/-- Shape of `applyDiffLayer` when a layer application fails: the scratch
snapshot removal is attempted and the apply error is returned. -/
theorem applyDiffLayer_apply_error (env : SquashEnv) (baseImg : ImageCfg)
    (layers : List Descriptor) (e : Err)
    (hp : env.prepareRes = .ok ())
    (ha : (applyLayersToSnapshot env.applyRes layers).1 = .error e) :
    applyDiffLayer env baseImg layers =
      (.error e, Event.preparedSnapshot ::
        (applyLayersToSnapshot env.applyRes layers).2 ++
        [Event.removedSnapshot]) := by
  simp [applyDiffLayer, hp, ha]

/-- Shape of `applyDiffLayer` when diff creation fails: removal is
attempted and the wrapped export error is returned. -/
theorem applyDiffLayer_createDiff_error (env : SquashEnv)
    (baseImg : ImageCfg) (layers : List Descriptor) (e0 : Err)
    (hp : env.prepareRes = .ok ())
    (ha : (applyLayersToSnapshot env.applyRes layers).1 = .ok ())
    (hd : createDiff env.createDiffRaw env.infoRes env.digestParse =
      .error e0) :
    applyDiffLayer env baseImg layers =
      (.error (wrapErr "failed to export layer: " e0),
       Event.preparedSnapshot ::
        (applyLayersToSnapshot env.applyRes layers).2 ++
        [Event.removedSnapshot]) := by
  simp [applyDiffLayer, hp, ha, hd]

/-- Shape of `applyDiffLayer` when the commit fails with an error that is
not AlreadyExists. -/
theorem applyDiffLayer_commit_error (env : SquashEnv) (baseImg : ImageCfg)
    (layers : List Descriptor) (dd : Descriptor × String) (e : Err)
    (hp : env.prepareRes = .ok ())
    (ha : (applyLayersToSnapshot env.applyRes layers).1 = .ok ())
    (hd : createDiff env.createDiffRaw env.infoRes env.digestParse = .ok dd)
    (hc : env.commitRes = .error e)
    (hk : e.kind ≠ ErrKind.alreadyExists) :
    applyDiffLayer env baseImg layers =
      (.error e, Event.preparedSnapshot ::
        (applyLayersToSnapshot env.applyRes layers).2 ++
        [Event.removedSnapshot]) := by
  simp [applyDiffLayer, hp, ha, hd, hc, hk]

/-- Shape of `applyDiffLayer` when every stage and the commit succeed. -/
theorem applyDiffLayer_success (env : SquashEnv) (baseImg : ImageCfg)
    (layers : List Descriptor) (dd : Descriptor × String)
    (hp : env.prepareRes = .ok ())
    (ha : (applyLayersToSnapshot env.applyRes layers).1 = .ok ())
    (hd : createDiff env.createDiffRaw env.infoRes env.digestParse = .ok dd)
    (hc : env.commitRes = .ok ()) :
    applyDiffLayer env baseImg layers =
      (.ok (dd.1, dd.2, chainID (baseImg.rootfs.diffIDs ++ [dd.2])),
       Event.preparedSnapshot ::
        (applyLayersToSnapshot env.applyRes layers).2 ++
        [Event.committedSnapshot]) := by
  simp [applyDiffLayer, hp, ha, hd, hc]

/-- One of the stages of `Squash` between layer selection and the blob
writes fails with error `e` (every stage before it succeeding): layer
selection, the base-config read-back, a layer application, diff creation,
the snapshot commit (other than AlreadyExists), the manifest blob write,
or the config blob write. -/
def PreUpsertFailure (env : SquashEnv) (e : Err) : Prop :=
  (∃ img, env.readImage = .ok img ∧
    generateSquashLayer env.opt img.manifest = .error e) ∨
  (∃ img sl, env.readImage = .ok img ∧
    generateSquashLayer env.opt img.manifest = .ok sl ∧
    env.lease = .ok () ∧ env.readConfig = .error e) ∨
  (∃ img sl cfg, env.readImage = .ok img ∧
    generateSquashLayer env.opt img.manifest = .ok sl ∧
    env.lease = .ok () ∧ env.readConfig = .ok cfg ∧
    env.prepareRes = .ok () ∧
    (applyLayersToSnapshot env.applyRes sl).1 = .error e) ∨
  (∃ img sl cfg e0, env.readImage = .ok img ∧
    generateSquashLayer env.opt img.manifest = .ok sl ∧
    env.lease = .ok () ∧ env.readConfig = .ok cfg ∧
    env.prepareRes = .ok () ∧
    (applyLayersToSnapshot env.applyRes sl).1 = .ok () ∧
    createDiff env.createDiffRaw env.infoRes env.digestParse = .error e0 ∧
    e = wrapErr "failed to export layer: " e0) ∨
  (∃ img sl cfg dd, env.readImage = .ok img ∧
    generateSquashLayer env.opt img.manifest = .ok sl ∧
    env.lease = .ok () ∧ env.readConfig = .ok cfg ∧
    env.prepareRes = .ok () ∧
    (applyLayersToSnapshot env.applyRes sl).1 = .ok () ∧
    createDiff env.createDiffRaw env.infoRes env.digestParse = .ok dd ∧
    env.commitRes = .error e ∧ e.kind ≠ ErrKind.alreadyExists) ∨
  (∃ img sl cfg dd, env.readImage = .ok img ∧
    generateSquashLayer env.opt img.manifest = .ok sl ∧
    env.lease = .ok () ∧ env.readConfig = .ok cfg ∧
    env.prepareRes = .ok () ∧
    (applyLayersToSnapshot env.applyRes sl).1 = .ok () ∧
    createDiff env.createDiffRaw env.infoRes env.digestParse = .ok dd ∧
    env.commitRes = .ok () ∧ env.writeManifestRes = .error e) ∨
  (∃ img sl cfg dd, env.readImage = .ok img ∧
    generateSquashLayer env.opt img.manifest = .ok sl ∧
    env.lease = .ok () ∧ env.readConfig = .ok cfg ∧
    env.prepareRes = .ok () ∧
    (applyLayersToSnapshot env.applyRes sl).1 = .ok () ∧
    createDiff env.createDiffRaw env.infoRes env.digestParse = .ok dd ∧
    env.commitRes = .ok () ∧ env.writeManifestRes = .ok () ∧
    env.writeConfigRes = .error e)

/-- Shape of `Squash` when a layer application fails. -/
theorem squash_apply_fail_shape (env : SquashEnv) (e : Err)
    (img : SquashImage) (sl : List Descriptor) (cfg : ImageCfg)
    (h1 : env.readImage = .ok img)
    (h2 : generateSquashLayer env.opt img.manifest = .ok sl)
    (h3 : env.lease = .ok ())
    (h4 : env.readConfig = .ok cfg)
    (h5 : env.prepareRes = .ok ())
    (h6 : (applyLayersToSnapshot env.applyRes sl).1 = .error e) :
    Squash env = (.error e,
      Event.preparedSnapshot :: (applyLayersToSnapshot env.applyRes sl).2 ++
        [Event.removedSnapshot]) := by
  simp [Squash, h1, h2, h3, h4,
    applyDiffLayer_apply_error env _ sl e h5 h6]
/-- Membership in the standard `applyDiffLayer` failure/success trace:
an event that is not `preparedSnapshot`, not an `appliedLayer`, and not
the given tail event does not occur. -/
theorem notMem_std_trace (f : Descriptor → Except Err Unit)
    (ls : List Descriptor) (ev tail : Event)
    (h1 : ev ≠ Event.preparedSnapshot)
    (h2 : ∀ d, ev ≠ Event.appliedLayer d)
    (h3 : ev ≠ tail) :
    ev ∉ (Event.preparedSnapshot :: (applyLayersToSnapshot f ls).2 ++
      [tail]) := by
  intro hmem
  rcases List.mem_append.mp hmem with h | h
  · rcases List.mem_cons.mp h with h | h
    · exact h1 h
    · exact absurd h (notMem_applyLayers_events f ls ev h2)
  · exact h3 (List.mem_singleton.mp h)

/-- Same as `notMem_std_trace` for a trace extended by one more event. -/
theorem notMem_std_trace2 (f : Descriptor → Except Err Unit)
    (ls : List Descriptor) (ev tail1 tail2 : Event)
    (h1 : ev ≠ Event.preparedSnapshot)
    (h2 : ∀ d, ev ≠ Event.appliedLayer d)
    (h3 : ev ≠ tail1) (h4 : ev ≠ tail2) :
    ev ∉ ((Event.preparedSnapshot :: (applyLayersToSnapshot f ls).2 ++
      [tail1]) ++ [tail2]) := by
  intro hmem
  rcases List.mem_append.mp hmem with h | h
  · exact notMem_std_trace f ls ev tail1 h1 h2 h3 h
  · exact h4 (List.mem_singleton.mp h)

/-- C5: whenever a stage before the image-record upsert fails, `Squash`
returns that stage's error and no image record is written (neither an
Update nor a Create of the record succeeds); when the failing stage is a
layer application, the scratch snapshot removal is attempted and neither
the manifest blob nor the config blob is written. -/
theorem squash_failure_no_image_record (env : SquashEnv) (e : Err)
    (h : PreUpsertFailure env e) :
    (Squash env).1 = .error e ∧
    Event.updatedImage ∉ (Squash env).2 ∧
    Event.createdImage ∉ (Squash env).2 ∧
    (∀ img sl cfg, env.readImage = .ok img →
      generateSquashLayer env.opt img.manifest = .ok sl →
      env.lease = .ok () → env.readConfig = .ok cfg →
      env.prepareRes = .ok () →
      (applyLayersToSnapshot env.applyRes sl).1 = .error e →
      Event.removedSnapshot ∈ (Squash env).2 ∧
      Event.wroteManifestBlob ∉ (Squash env).2 ∧
      Event.wroteConfigBlob ∉ (Squash env).2) := by
  rcases h with ⟨img, h1, h2⟩ |
    ⟨img, sl, h1, h2, h3, h4⟩ |
    ⟨img, sl, cfg, h1, h2, h3, h4, h5, h6⟩ |
    ⟨img, sl, cfg, e0, h1, h2, h3, h4, h5, h6, h7, h8⟩ |
    ⟨img, sl, cfg, dd, h1, h2, h3, h4, h5, h6, h7, h8, h9⟩ |
    ⟨img, sl, cfg, dd, h1, h2, h3, h4, h5, h6, h7, h8, h9⟩ |
    ⟨img, sl, cfg, dd, h1, h2, h3, h4, h5, h6, h7, h8, h9, h10⟩
  · -- layer selection fails
    have hsq : Squash env = (.error e, []) := by simp [Squash, h1, h2]
    rw [hsq]
    refine ⟨rfl, by simp, by simp, ?_⟩
    intro img' sl' cfg' h1' h2' _ _ _ _
    rw [h1] at h1'
    injection h1' with hi
    subst hi
    rw [h2] at h2'
    exact Except.noConfusion h2'
  · -- base-config read-back fails
    have hsq : Squash env = (.error e, []) := by simp [Squash, h1, h2, h3, h4]
    rw [hsq]
    refine ⟨rfl, by simp, by simp, ?_⟩
    intro img' sl' cfg' _ _ _ h4' _ _
    rw [h4] at h4'
    exact Except.noConfusion h4'
  · -- a layer application fails
    have hsq := squash_apply_fail_shape env e img sl cfg h1 h2 h3 h4 h5 h6
    rw [hsq]
    refine ⟨rfl,
      notMem_std_trace _ _ _ _ (fun hc => Event.noConfusion hc)
        (fun d hc => Event.noConfusion hc) (fun hc => Event.noConfusion hc),
      notMem_std_trace _ _ _ _ (fun hc => Event.noConfusion hc)
        (fun d hc => Event.noConfusion hc) (fun hc => Event.noConfusion hc),
      ?_⟩
    intro img' sl' cfg' h1' h2' _ _ _ _
    rw [h1] at h1'
    injection h1' with hi
    subst hi
    rw [h2] at h2'
    injection h2' with hs
    subst hs
    refine ⟨by simp, ?_, ?_⟩
    · exact notMem_std_trace _ _ _ _ (fun hc => Event.noConfusion hc)
        (fun d hc => Event.noConfusion hc) (fun hc => Event.noConfusion hc)
    · exact notMem_std_trace _ _ _ _ (fun hc => Event.noConfusion hc)
        (fun d hc => Event.noConfusion hc) (fun hc => Event.noConfusion hc)
  · -- diff creation fails
    subst h8
    have hsq : Squash env = (.error (wrapErr "failed to export layer: " e0),
        Event.preparedSnapshot ::
          (applyLayersToSnapshot env.applyRes sl).2 ++
          [Event.removedSnapshot]) := by
      simp [Squash, h1, h2, h3, h4,
        applyDiffLayer_createDiff_error env _ sl e0 h5 h6 h7]
    rw [hsq]
    refine ⟨rfl,
      notMem_std_trace _ _ _ _ (fun hc => Event.noConfusion hc)
        (fun d hc => Event.noConfusion hc) (fun hc => Event.noConfusion hc),
      notMem_std_trace _ _ _ _ (fun hc => Event.noConfusion hc)
        (fun d hc => Event.noConfusion hc) (fun hc => Event.noConfusion hc),
      ?_⟩
    intro img' sl' cfg' h1' h2' _ _ _ h6'
    rw [h1] at h1'
    injection h1' with hi
    subst hi
    rw [h2] at h2'
    injection h2' with hs
    subst hs
    rw [h6] at h6'
    exact Except.noConfusion h6'
  · -- snapshot commit fails (not AlreadyExists)
    have hsq : Squash env = (.error e,
        Event.preparedSnapshot ::
          (applyLayersToSnapshot env.applyRes sl).2 ++
          [Event.removedSnapshot]) := by
      simp [Squash, h1, h2, h3, h4,
        applyDiffLayer_commit_error env _ sl dd e h5 h6 h7 h8 h9]
    rw [hsq]
    refine ⟨rfl,
      notMem_std_trace _ _ _ _ (fun hc => Event.noConfusion hc)
        (fun d hc => Event.noConfusion hc) (fun hc => Event.noConfusion hc),
      notMem_std_trace _ _ _ _ (fun hc => Event.noConfusion hc)
        (fun d hc => Event.noConfusion hc) (fun hc => Event.noConfusion hc),
      ?_⟩
    intro img' sl' cfg' h1' h2' _ _ _ h6'
    rw [h1] at h1'
    injection h1' with hi
    subst hi
    rw [h2] at h2'
    injection h2' with hs
    subst hs
    rw [h6] at h6'
    exact Except.noConfusion h6'
  · -- manifest blob write fails
    have hsq : Squash env = (.error e,
        Event.preparedSnapshot ::
          (applyLayersToSnapshot env.applyRes sl).2 ++
          [Event.committedSnapshot]) := by
      simp [Squash, h1, h2, h3, h4,
        applyDiffLayer_success env _ sl dd h5 h6 h7 h8,
        writeContentsForImage, h9]
    rw [hsq]
    refine ⟨rfl,
      notMem_std_trace _ _ _ _ (fun hc => Event.noConfusion hc)
        (fun d hc => Event.noConfusion hc) (fun hc => Event.noConfusion hc),
      notMem_std_trace _ _ _ _ (fun hc => Event.noConfusion hc)
        (fun d hc => Event.noConfusion hc) (fun hc => Event.noConfusion hc),
      ?_⟩
    intro img' sl' cfg' h1' h2' _ _ _ h6'
    rw [h1] at h1'
    injection h1' with hi
    subst hi
    rw [h2] at h2'
    injection h2' with hs
    subst hs
    rw [h6] at h6'
    exact Except.noConfusion h6'
  · -- config blob write fails
    have hsq : Squash env = (.error e,
        (Event.preparedSnapshot ::
          (applyLayersToSnapshot env.applyRes sl).2 ++
          [Event.committedSnapshot]) ++ [Event.wroteManifestBlob]) := by
      simp [Squash, h1, h2, h3, h4,
        applyDiffLayer_success env _ sl dd h5 h6 h7 h8,
        writeContentsForImage, h9, h10]
    rw [hsq]
    refine ⟨rfl,
      notMem_std_trace2 _ _ _ _ _ (fun hc => Event.noConfusion hc)
        (fun d hc => Event.noConfusion hc) (fun hc => Event.noConfusion hc)
        (fun hc => Event.noConfusion hc),
      notMem_std_trace2 _ _ _ _ _ (fun hc => Event.noConfusion hc)
        (fun d hc => Event.noConfusion hc) (fun hc => Event.noConfusion hc)
        (fun hc => Event.noConfusion hc),
      ?_⟩
    intro img' sl' cfg' h1' h2' _ _ _ h6'
    rw [h1] at h1'
    injection h1' with hi
    subst hi
    rw [h2] at h2'
    injection h2' with hs
    subst hs
    rw [h6] at h6'
    exact Except.noConfusion h6'
/-- A concrete non-recoverable apply error. -/
def errApply : Err := { kind := .other, msg := "apply failed" }

/-- A concrete AlreadyExists error. -/
def errAE : Err := { kind := .alreadyExists, msg := "already exists" }

/-- A concrete NotFound error. -/
def errNF : Err := { kind := .notFound, msg := "not found" }

/-- The raw descriptor the differ returns in the concrete environment. -/
def descNew : Descriptor := { mediaType := "", digest := "sha256:new", size := 0 }

/-- The diff descriptor `createDiff` builds in the concrete environment. -/
def ddC6 : Descriptor :=
  { mediaType := MediaTypeDockerSchema2LayerGzip, digest := "sha256:new",
    size := 5 }

/-- A fully successful concrete environment. -/
def envBase : SquashEnv :=
  { opt := optDigA
    hostArch := "amd64"
    hostOS := "linux"
    now := 0
    snapshotterName := "overlayfs"
    readImage := .ok { config := cfgW1, manifest := mABC }
    lease := .ok ()
    readConfig := .ok cfgW1
    prepareRes := .ok ()
    applyRes := fun _ => .ok ()
    createDiffRaw := .ok descNew
    infoRes := .ok { size := 5, labels := [("containerd.io/uncompressed", "sha256:u")] }
    digestParse := fun s => .ok s
    commitRes := .ok ()
    removeRes := .ok ()
    marshalImage := fun _ => "cfgjson"
    marshalManifest := fun _ => "mfstjson"
    hashBytes := fun s => "sha256:" ++ s
    writeManifestRes := .ok ()
    writeConfigRes := .ok ()
    updateRes := .ok ()
    createRes := .ok ()
    unpackRes := .ok () }

/-- Environment in which applying the second of three squash layers fails. -/
def envC5 : SquashEnv :=
  { envBase with applyRes :=
      fun d => if d.digest = "sha256:b" then .error errApply else .ok () }

/-- Environment in which the snapshot commit collides (AlreadyExists). -/
def envC6 : SquashEnv := { envBase with commitRes := .error errAE }

/-- Environment in which the image-record Update fails with NotFound. -/
def envC7 : SquashEnv := { envBase with updateRes := .error errNF }

/-- Witness for C4 at a concrete environment: two retained layers plus
the diff layer give four GC labels; label 2 names the second layer's
digest; and the write succeeds. -/
theorem writeContentsForImage_manifest_labels_witness :
    (gcLabels (configDescFor envBase cfgW1) ([dA, dB] ++ [dC])).length = 4 ∧
    (gcLabels (configDescFor envBase cfgW1) ([dA, dB] ++ [dC])).get? 2 =
      some ("containerd.io/gc.ref.content.2", dB.digest) ∧
    (writeContentsForImage envBase "overlayfs" cfgW1 [dA, dB] dC).1 =
      .ok (mfstDescFor envBase
        (newManifest (configDescFor envBase cfgW1) ([dA, dB] ++ [dC])),
        (configDescFor envBase cfgW1).digest) := by
  have h := writeContentsForImage_manifest_labels envBase "overlayfs" cfgW1
    [dA, dB] dC
  refine ⟨?_, ?_, ?_⟩
  · exact (h.2.2.2.1).trans (by rfl)
  · exact (h.2.2.2.2.2 1 (by decide)).trans (by rfl)
  · rw [h.2.2.1 rfl rfl]

/-- Witness for C5 at a concrete environment where the apply of the
second of three layers fails: the apply error is returned, removal is
attempted, and no image record or manifest blob is written. -/
theorem squash_failure_no_image_record_witness :
    (Squash envC5).1 = .error errApply ∧
    Event.removedSnapshot ∈ (Squash envC5).2 ∧
    Event.updatedImage ∉ (Squash envC5).2 ∧
    Event.wroteManifestBlob ∉ (Squash envC5).2 := by
  have h := squash_failure_no_image_record envC5 errApply
    (Or.inr (Or.inr (Or.inl ⟨{ config := cfgW1, manifest := mABC },
      [dA, dB, dC], cfgW1, rfl, rfl, rfl, rfl, rfl, rfl⟩)))
  have hin := h.2.2.2 { config := cfgW1, manifest := mABC } [dA, dB, dC]
    cfgW1 rfl rfl rfl rfl rfl rfl
  exact ⟨h.1, hin.1, h.2.1, hin.2.1⟩

/-- Witness for C6 at a concrete environment: an AlreadyExists commit
failure still yields the successful result triple. -/
theorem applyDiffLayer_commit_collision_witness :
    (applyDiffLayer envC6 cfgW1 [dA]).1 =
      .ok (ddC6, "sha256:u",
        chainID (cfgW1.rootfs.diffIDs ++ ["sha256:u"])) ∧
    (applyDiffLayer { envC6 with commitRes := .ok () } cfgW1 [dA]).1 =
      .ok (ddC6, "sha256:u",
        chainID (cfgW1.rootfs.diffIDs ++ ["sha256:u"])) := by
  have h := applyDiffLayer_commit_collision envC6 cfgW1 [dA] ddC6 "sha256:u"
    errAE rfl rfl rfl rfl
  exact h.1 rfl

/-- Witness for C7 at a concrete environment: Update fails NotFound, so
Create runs and the upsert succeeds. -/
theorem createSquashImage_upsert_witness :
    (createSquashImage envC7).1 = .ok () ∧
    Event.calledCreate ∈ (createSquashImage envC7).2 := by
  have h := createSquashImage_upsert envC7
  exact ⟨h.2.2.2.1 errNF rfl rfl rfl, (h.2.1).mpr ⟨errNF, rfl, rfl⟩⟩

end Squash
